import Mathlib

/-!
Shallow embedding of the storage layer and handlers of a chat storefront
bot (database.py, admin_handlers.py, bot_handlers.py).  Timestamps are
modelled as natural numbers supplied by the caller in place of
datetime.now(); the messaging transport is modelled as a delivery oracle
(a function from chat id to success).  Each SQL table becomes a list of
rows; INSERT OR REPLACE on a primary-key column becomes replace-first-or-
append, which agrees with SQLite under the primary-key uniqueness that
the schema enforces.
-/

/-- Row of the users table: user_id INTEGER PRIMARY KEY, username,
first_name, last_name, joined_date, is_blocked INTEGER DEFAULT 0,
last_activity. -/
structure UserRow where
  user_id : Int
  username : String
  first_name : String
  last_name : Option String
  joined_date : Nat
  is_blocked : Int
  last_activity : Nat
  deriving DecidableEq, Repr

/-- Row of the admins table: user_id INTEGER PRIMARY KEY, username,
added_by, added_date. -/
structure AdminRow where
  user_id : Int
  username : String
  added_by : Int
  added_date : Nat
  deriving DecidableEq, Repr

/-- Row of the products table: id INTEGER PRIMARY KEY AUTOINCREMENT,
category, name, features, price, description, created_date. -/
structure ProductRow where
  id : Nat
  category : String
  name : String
  features : String
  price : String
  description : String
  created_date : Nat
  deriving DecidableEq, Repr

/-- Row of the orders table: id INTEGER PRIMARY KEY AUTOINCREMENT,
user_id, product_name, amount, status, order_date, screenshot_file_id. -/
structure OrderRow where
  id : Nat
  user_id : Int
  product_name : String
  amount : String
  status : String
  order_date : Nat
  screenshot_file_id : Option String
  deriving DecidableEq, Repr

/-- The five-table database owned by DatabaseManager, plus the AUTOINCREMENT
counters of the products and orders tables. -/
structure DB where
  users : List UserRow
  admins : List AdminRow
  products : List ProductRow
  nextProductId : Nat
  orders : List OrderRow
  nextOrderId : Nat
  settings : List (String × String)
  deriving DecidableEq, Repr

/-- A freshly initialised database (init_database creates empty tables;
AUTOINCREMENT ids start at 1). -/
def emptyDB : DB := ⟨[], [], [], 1, [], 1, []⟩

/-- INSERT OR REPLACE INTO users keyed by user_id: SQLite deletes the row
with the conflicting key (keeping its rowid position) and inserts the new
row; absent columns take their schema defaults. -/
def upsertUser : List UserRow → UserRow → List UserRow
  | [], row => [row]
  | r :: rest, row =>
    if r.user_id = row.user_id then row :: rest else r :: upsertUser rest row

/-- INSERT OR REPLACE INTO admins keyed by user_id. -/
def upsertAdmin : List AdminRow → AdminRow → List AdminRow
  | [], row => [row]
  | a :: rest, row =>
    if a.user_id = row.user_id then row :: rest else a :: upsertAdmin rest row

/-- INSERT OR REPLACE INTO settings keyed by key. -/
def upsertSetting : List (String × String) → String → String → List (String × String)
  | [], k, v => [(k, v)]
  | kv :: rest, k, v =>
    if kv.1 = k then (k, v) :: rest else kv :: upsertSetting rest k v

/-- DatabaseManager.add_user: INSERT OR REPLACE of the six listed columns;
is_blocked is not in the column list so the replacement row gets the
schema default 0, and joined_date is set to now. -/
def add_user (db : DB) (now : Nat) (uid : Int) (uname fname : String)
    (lname : Option String) : DB :=
  { db with users := upsertUser db.users ⟨uid, uname, fname, lname, now, 0, now⟩ }

/-- DatabaseManager.update_user_activity: UPDATE users SET last_activity
WHERE user_id matches. -/
def update_user_activity (db : DB) (now : Nat) (uid : Int) : DB :=
  { db with users := db.users.map fun r =>
      if r.user_id = uid then { r with last_activity := now } else r }

/-- DatabaseManager.add_admin: INSERT OR REPLACE INTO admins. -/
def add_admin (db : DB) (now : Nat) (uid : Int) (uname : String) (addedBy : Int) : DB :=
  { db with admins := upsertAdmin db.admins ⟨uid, uname, addedBy, now⟩ }

/-- DatabaseManager.remove_admin: DELETE FROM admins WHERE user_id matches. -/
def remove_admin (db : DB) (uid : Int) : DB :=
  { db with admins := db.admins.filter fun a => a.user_id != uid }

/-- DatabaseManager.is_admin: SELECT from admins by user_id, true iff a row
is found. -/
def is_admin (db : DB) (uid : Int) : Bool :=
  db.admins.any fun a => a.user_id == uid

/-- DatabaseManager.get_all_users: SELECT ... FROM users WHERE is_blocked = 0. -/
def get_all_users (db : DB) : List UserRow :=
  db.users.filter fun r => r.is_blocked == 0

/-- DatabaseManager.add_product: INSERT with a fresh AUTOINCREMENT id. -/
def add_product (db : DB) (now : Nat) (category pname features price description : String) : DB :=
  { db with
      products := db.products ++
        [⟨db.nextProductId, category, pname, features, price, description, now⟩],
      nextProductId := db.nextProductId + 1 }

/-- DatabaseManager.get_products_by_category: SELECT ... WHERE category = ?
(BINARY collation, i.e. exact case-sensitive string equality). -/
def get_products_by_category (db : DB) (category : String) : List ProductRow :=
  db.products.filter fun p => p.category == category

/-- DatabaseManager.get_all_products: SELECT ... FROM products. -/
def get_all_products (db : DB) : List ProductRow := db.products

/-- DatabaseManager.delete_product: DELETE FROM products WHERE id = ?. -/
def delete_product (db : DB) (pid : Nat) : DB :=
  { db with products := db.products.filter fun p => p.id != pid }

/-- DatabaseManager.add_order: INSERT with a fresh AUTOINCREMENT id, status
hard-coded to "pending". -/
def add_order (db : DB) (now : Nat) (uid : Int) (pname amount : String)
    (screenshot : Option String) : DB :=
  { db with
      orders := db.orders ++
        [⟨db.nextOrderId, uid, pname, amount, "pending", now, screenshot⟩],
      nextOrderId := db.nextOrderId + 1 }

/-- DatabaseManager.get_setting: SELECT value FROM settings WHERE key = ?;
returns the stored value when a row exists, else the supplied default
(None when no default is given). -/
def get_setting (db : DB) (key : String) (deflt : Option String) : Option String :=
  match db.settings.find? (fun kv => kv.1 == key) with
  | some kv => some kv.2
  | none => deflt

/-- DatabaseManager.set_setting: INSERT OR REPLACE INTO settings. -/
def set_setting (db : DB) (key value : String) : DB :=
  { db with settings := upsertSetting db.settings key value }

/-- DatabaseManager.get_user_count: SELECT COUNT of users WHERE is_blocked = 0. -/
def get_user_count (db : DB) : Nat :=
  db.users.countP fun r => r.is_blocked == 0

/-- ConversationHandler.END of the bot framework (the wizard's Idle state). -/
def conversationEnd : Int := -1

/-- Conversation state constant WAITING_BIO. -/
def WAITING_BIO : Int := 1

/-- Conversation state constant WAITING_BROADCAST. -/
def WAITING_BROADCAST : Int := 2

/-- AdminHandlers.is_owner_or_admin: user_id in OWNER_IDS or db.is_admin. -/
def is_owner_or_admin (ownerIds : List Int) (db : DB) (uid : Int) : Bool :=
  ownerIds.contains uid || is_admin db uid

/-- The username munging in the admin commands: python's
username.replace with the at sign removed (all occurrences of the
one-character pattern dropped). -/
def stripAt (u : String) : String :=
  String.mk (u.toList.filter fun ch => ch != '@')

/-- AdminHandlers.addadmin_command: owner gate, then usage check, then a
success reply; the body never calls the database (its admin write is the
comment "Add admin logic here"), so the state is returned untouched on
every path. -/
def addadmin_command (ownerIds : List Int) (actor : Int) (args : List String)
    (db : DB) : DB × String :=
  if ownerIds.contains actor then
    match args with
    | [] => (db, "Usage: /addadmin @username")
    | u :: _ => (db, "✅ @" ++ stripAt u ++ " has been added as admin!")
  else (db, "❌ Only owners can add admins!")

/-- AdminHandlers.removeadmin_command: same shape as addadmin_command, and
likewise never calls the database. -/
def removeadmin_command (ownerIds : List Int) (actor : Int) (args : List String)
    (db : DB) : DB × String :=
  if ownerIds.contains actor then
    match args with
    | [] => (db, "Usage: /removeadmin @username")
    | u :: _ => (db, "✅ @" ++ stripAt u ++ " has been removed from admin!")
  else (db, "❌ Only owners can remove admins!")

/-- AdminHandlers.users_command, a representative privileged action: gated
on is_owner_or_admin; some count on success, none meaning the
"Access denied" reply. -/
def users_command (ownerIds : List Int) (actor : Int) (db : DB) : Option Nat :=
  if is_owner_or_admin ownerIds db actor then some (get_user_count db) else none

/-- One iteration of the broadcast loop in
AdminHandlers.handle_broadcast_message: a successful send bumps
sent_count, a raised send bumps failed_count. -/
def broadcastStep (send : Int → Bool) (acc : Nat × Nat) (u : UserRow) : Nat × Nat :=
  if send u.user_id then (acc.1 + 1, acc.2) else (acc.1, acc.2 + 1)

/-- AdminHandlers.handle_broadcast_message: returns END when the update has
no message or user, or the actor fails the privilege check; otherwise
iterates get_all_users with the delivery oracle and reports the final
(sent, failed) summary, touching no table.  Result: (database, returned
conversation state, final summary when a broadcast ran). -/
def handle_broadcast_message (ownerIds : List Int) (msg : Option (Int × Option String))
    (send : Int → Bool) (db : DB) : DB × Int × Option (Nat × Nat) :=
  match msg with
  | none => (db, conversationEnd, none)
  | some (actor, _text) =>
    if is_owner_or_admin ownerIds db actor then
      (db, conversationEnd, some ((get_all_users db).foldl (broadcastStep send) (0, 0)))
    else (db, conversationEnd, none)

/-- AdminHandlers.handle_bio_message: returns END when the update has no
message or user, or the actor fails the privilege check; otherwise stores
the text (or the fallback "Default bio message") under bio_message and
returns END. -/
def handle_bio_message (ownerIds : List Int) (msg : Option (Int × Option String))
    (db : DB) : DB × Int :=
  match msg with
  | none => (db, conversationEnd)
  | some (actor, text) =>
    if is_owner_or_admin ownerIds db actor then
      (set_setting db "bio_message" (text.getD "Default bio message"), conversationEnd)
    else (db, conversationEnd)

/-- AdminHandlers.cancel_conversation: replies when a message exists and
always returns END. -/
def cancel_conversation (_hasMessage : Bool) : Int :=
  conversationEnd

/-- BotHandlers.buy_now_callback: looks the product up in get_all_products
by id; when found, records a pending order carrying the product's name
and current price and no screenshot. -/
def buy_now_callback (db : DB) (now : Nat) (uid : Int) (pid : Nat) : DB :=
  match (get_all_products db).find? (fun p => p.id == pid) with
  | none => db
  | some p => add_order db now uid p.name p.price none

/-- BotHandlers.handle_photo: records an independent order row with product
name "Screenshot Upload", amount "0" and the photo's file id. -/
def handle_photo (db : DB) (now : Nat) (uid : Int) (fileId : String) : DB :=
  add_order db now uid "Screenshot Upload" "0" (some fileId)

/-- The category listing of BotHandlers.premium_files_callback:
list(set(product.category for product in products)) — the distinct
category values, here in first-occurrence order. -/
def premium_files_categories (db : DB) : List String :=
  ((get_all_products db).map (fun p => p.category)).dedup

/-- The write operations of DatabaseManager (its read operations do not
change the database). -/
inductive DBOp where
  | opAddUser (now : Nat) (uid : Int) (uname fname : String) (lname : Option String)
  | opUpdateActivity (now : Nat) (uid : Int)
  | opAddAdmin (now : Nat) (uid : Int) (uname : String) (addedBy : Int)
  | opRemoveAdmin (uid : Int)
  | opAddProduct (now : Nat) (category pname features price description : String)
  | opDeleteProduct (pid : Nat)
  | opAddOrder (now : Nat) (uid : Int) (pname amount : String) (screenshot : Option String)
  | opSetSetting (key value : String)
  deriving DecidableEq, Repr

/-- Interpretation of a DatabaseManager write operation. -/
def applyOp (db : DB) : DBOp → DB
  | .opAddUser now uid un fn ln => add_user db now uid un fn ln
  | .opUpdateActivity now uid => update_user_activity db now uid
  | .opAddAdmin now uid un by_ => add_admin db now uid un by_
  | .opRemoveAdmin uid => remove_admin db uid
  | .opAddProduct now c n f pr d => add_product db now c n f pr d
  | .opDeleteProduct pid => delete_product db pid
  | .opAddOrder now uid pn am sc => add_order db now uid pn am sc
  | .opSetSetting k v => set_setting db k v

/-- The first default product seeded by BotHandlers, used as a concrete
fixture. -/
def prodDiuwin : ProductRow :=
  ⟨1, "Apps", "Diuwin Premium", "Premium features", "299", "Complete premium access", 0⟩

/-- A second product in another category, used as a concrete fixture. -/
def prodCricket : ProductRow :=
  ⟨2, "Games", "Cricket 24 Pro", "Live scores", "199", "Professional cricket tracking", 0⟩

/-- Database fixture holding the two products. -/
def dbP : DB := { emptyDB with products := [prodDiuwin, prodCricket], nextProductId := 3 }

/-- Database fixture holding two non-blocked users. -/
def dbU : DB :=
  { emptyDB with users := [⟨2, "alice", "Alice", none, 0, 0, 0⟩, ⟨3, "bob", "Bob", none, 0, 0, 0⟩] }

/-- Database fixture holding two admin rows. -/
def dbA : DB := { emptyDB with admins := [⟨5, "eve", 1, 0⟩, ⟨7, "mallory", 1, 0⟩] }

/-- Database fixture holding one blocked user. -/
def dbB : DB := { emptyDB with users := [⟨2, "alice", "Alice", none, 0, 1, 0⟩] }

/-- C10: get_user_count always equals the length of the sequence returned by
get_all_users — both count exactly the users whose blocked flag is 0. -/
theorem claim_c10_user_count_eq_listing_length (db : DB) :
    get_user_count db = (get_all_users db).length := by
  simp [get_user_count, get_all_users, List.countP_eq_length_filter]

/-- C6: deleting a product id absent from the catalog leaves the store
unchanged and raises no fault, and delete_product is idempotent. -/
theorem claim_c6_delete_absent_noop (db : DB) (pid : Nat)
    (habsent : ∀ p ∈ db.products, p.id ≠ pid) :
    delete_product db pid = db ∧
    ∀ (d : DB) (q : Nat), delete_product (delete_product d q) q = delete_product d q := by
  constructor
  · have h : db.products.filter (fun p => p.id != pid) = db.products := by
      rw [List.filter_eq_self]
      intro p hp
      simpa using habsent p hp
    simp [delete_product, h]
  · intro d q
    simp [delete_product, List.filter_filter]

/-- Helper: after upsertSetting, the first settings row with the key holds
the new value. -/
theorem find_upsertSetting (s : List (String × String)) (k v : String) :
    (upsertSetting s k v).find? (fun kv => kv.1 == k) = some (k, v) := by
  induction s with
  | nil => simp [upsertSetting]
  | cons kv rest ih =>
    by_cases h : kv.1 = k
    · simp [upsertSetting, h]
    · simp [upsertSetting, h, ih]

/-- C5: set_setting then get_setting with no default returns exactly the
stored value; reading a key absent from the settings table with default D
returns D. -/
theorem claim_c5_settings_roundtrip (db : DB) (k v d : String) :
    get_setting (set_setting db k v) k none = some v ∧
    ((∀ kv ∈ db.settings, kv.1 ≠ k) → get_setting db k (some d) = some d) := by
  constructor
  · simp [get_setting, set_setting, find_upsertSetting]
  · intro habsent
    have h : db.settings.find? (fun kv => kv.1 == k) = none := by
      rw [List.find?_eq_none]
      intro kv hkv
      simpa using habsent kv hkv
    simp [get_setting, h]

/-- C7: category lookup returns exactly the products whose category equals
the request under case-sensitive string equality (empty when none
matches), and the category listing is exactly the distinct set of
category values of all products. -/
theorem claim_c7_category_lookup_and_listing (db : DB) (c : String) :
    (∀ p, p ∈ get_products_by_category db c ↔ p ∈ get_all_products db ∧ p.category = c) ∧
    ((∀ p ∈ get_all_products db, p.category ≠ c) → get_products_by_category db c = []) ∧
    (∀ s, s ∈ premium_files_categories db ↔ ∃ p ∈ get_all_products db, p.category = s) ∧
    (premium_files_categories db).Nodup := by
  refine ⟨?_, ?_, ?_, ?_⟩
  · intro p
    simp [get_products_by_category, get_all_products]
  · intro h
    rw [get_products_by_category, List.filter_eq_nil_iff]
    intro p hp
    simpa using h p hp
  · intro s
    simp [premium_files_categories, get_all_products, List.mem_dedup, eq_comm]
  · simp [premium_files_categories, List.nodup_dedup]

/-- C8: on every control path — payload applied, access denied, missing
message, or cancel — the bio and broadcast wizard handlers return
ConversationHandler.END, never remaining in the awaiting-input state. -/
theorem claim_c8_wizards_always_end (ownerIds : List Int)
    (msg : Option (Int × Option String)) (send : Int → Bool) (db : DB) (hm : Bool) :
    (handle_bio_message ownerIds msg db).2 = conversationEnd ∧
    (handle_broadcast_message ownerIds msg send db).2.1 = conversationEnd ∧
    cancel_conversation hm = conversationEnd := by
  refine ⟨?_, ?_, rfl⟩
  · cases msg with
    | none => rfl
    | some m =>
      obtain ⟨actor, text⟩ := m
      by_cases h : is_owner_or_admin ownerIds db actor = true <;>
        simp [handle_bio_message, h]
  · cases msg with
    | none => rfl
    | some m =>
      obtain ⟨actor, text⟩ := m
      by_cases h : is_owner_or_admin ownerIds db actor = true <;>
        simp [handle_broadcast_message, h]

/-- C1 (code bug): the add-admin command is a stub.  With owner set
containing 1 over a fresh database, owner 1 adding user @x replies
success yet returns the database untouched, so non-owner 2's next
privileged action (/users) is refused; in general neither admin command
ever changes the database. -/
theorem claim_c1_addadmin_stub_denies_new_admin :
    addadmin_command [1] 1 ["@x"] emptyDB = (emptyDB, "✅ @x has been added as admin!") ∧
    users_command [1] 2 (addadmin_command [1] 1 ["@x"] emptyDB).1 = none ∧
    ∀ (o : List Int) (a : Int) (args : List String) (d : DB),
      (addadmin_command o a args d).1 = d ∧ (removeadmin_command o a args d).1 = d := by
  refine ⟨by decide, by decide, ?_⟩
  intro o a args d
  constructor <;>
    · simp only [addadmin_command, removeadmin_command]
      split
      · cases args <;> rfl
      · rfl

/-- C4 counterexample: with owner set containing id 5 and an admin row for
5, removing 5 from the admin table does not make the subsequent privilege
check for 5 return false. -/
theorem claim_c4_owner_still_privileged :
    ¬ (is_owner_or_admin [5] (remove_admin dbA 5) 5 = false) := by decide

/-- C4 (amended): the privilege check returns true iff the id is in the
owner set or currently has a row in the admin table; removing a non-owner
id from the admin table makes the subsequent check for that id return
false. -/
theorem claim_c4_privilege_check (ownerIds : List Int) (db : DB) (uid : Int) :
    (is_owner_or_admin ownerIds db uid = true ↔
      uid ∈ ownerIds ∨ ∃ a ∈ db.admins, a.user_id = uid) ∧
    (uid ∉ ownerIds → is_owner_or_admin ownerIds (remove_admin db uid) uid = false) := by
  constructor
  · simp [is_owner_or_admin, is_admin]
  · intro h
    simp only [is_owner_or_admin, is_admin, remove_admin, Bool.or_eq_false_iff]
    constructor
    · simpa using h
    · rw [List.any_eq_false]
      intro a ha
      have hne : a.user_id ≠ uid := by
        have := (List.mem_filter.mp ha).2
        simpa using this
      simpa using hne

/-- C4 witness: removing non-owner admin 7 flips the check to false. -/
theorem claim_c4_privilege_check_witness :
    (7 : Int) ∉ ([5] : List Int) ∧
    is_owner_or_admin [5] (remove_admin dbA 7) 7 = false :=
  ⟨by decide, (claim_c4_privilege_check [5] dbA 7).2 (by decide)⟩

/-- C5 witness: round trip at the key bio_message on a fresh database. -/
theorem claim_c5_settings_roundtrip_witness :
    get_setting (set_setting emptyDB "bio_message" "V") "bio_message" none = some "V" ∧
    get_setting emptyDB "bio_message" (some "D") = some "D" :=
  ⟨(claim_c5_settings_roundtrip emptyDB "bio_message" "V" "D").1,
   (claim_c5_settings_roundtrip emptyDB "bio_message" "V" "D").2 (by decide)⟩

/-- C6 witness: id 99 is absent from the two-product fixture. -/
theorem claim_c6_delete_absent_noop_witness :
    delete_product dbP 99 = dbP ∧
    ∀ (d : DB) (q : Nat), delete_product (delete_product d q) q = delete_product d q :=
  claim_c6_delete_absent_noop dbP 99 (by decide)

/-- C7 witness: on the Apps/Games fixture, requesting category Tools
returns the empty list and the listing is exactly the two categories. -/
theorem claim_c7_category_lookup_witness :
    get_products_by_category dbP "Tools" = [] ∧
    premium_files_categories dbP = ["Apps", "Games"] :=
  ⟨(claim_c7_category_lookup_and_listing dbP "Tools").2.1 (by decide), by decide⟩

/-- Helper: a list's length splits into the counts of delivery successes
and failures. -/
theorem countP_split (p : UserRow → Bool) (l : List UserRow) :
    l.length = l.countP p + l.countP (fun u => !p u) := by
  induction l with
  | nil => rfl
  | cons u rest ih =>
    cases h : p u <;> simp [List.countP_cons, h, ih] <;> omega

/-- Helper: the broadcast loop folds to the pair of the success count and
the failure count. -/
theorem broadcast_foldl_counts (send : Int → Bool) (l : List UserRow) (a b : Nat) :
    l.foldl (broadcastStep send) (a, b) =
      (a + l.countP (fun u => send u.user_id),
       b + l.countP (fun u => !send u.user_id)) := by
  induction l generalizing a b with
  | nil => simp
  | cons u rest ih =>
    cases h : send u.user_id <;>
      simp [broadcastStep, h, ih, List.countP_cons, Nat.add_assoc, Nat.add_comm 1]

/-- C2: broadcasting as a privileged actor over the N non-blocked users, of
whom exactly K reject delivery, ends the conversation with a final
summary of exactly (N − K) sent and K failed, and performs no write to
the database. -/
theorem claim_c2_broadcast_summary (ownerIds : List Int) (actor : Int) (text : String)
    (send : Int → Bool) (db : DB)
    (hpriv : is_owner_or_admin ownerIds db actor = true) :
    handle_broadcast_message ownerIds (some (actor, some text)) send db =
      (db, conversationEnd,
        some ((get_all_users db).length - (get_all_users db).countP (fun u => !send u.user_id),
              (get_all_users db).countP (fun u => !send u.user_id))) := by
  have hc := broadcast_foldl_counts send (get_all_users db) 0 0
  have hlen := countP_split (fun u => send u.user_id) (get_all_users db)
  have hsent : (get_all_users db).countP (fun u => send u.user_id) =
      (get_all_users db).length - (get_all_users db).countP (fun u => !send u.user_id) := by
    omega
  simp only [handle_broadcast_message, hpriv, if_pos, hc, Nat.zero_add, hsent]

/-- C2 witness: owner 1 broadcasts to the two users of the fixture; user 3
rejects delivery; the summary reports 1 sent, 1 failed, database
untouched. -/
theorem claim_c2_broadcast_summary_witness :
    handle_broadcast_message [1] (some (1, some "hello")) (fun i => i == 2) dbU =
      (dbU, conversationEnd, some (1, 1)) := by
  rw [claim_c2_broadcast_summary [1] 1 "hello" (fun i => i == 2) dbU (by decide)]
  decide

/-- C3: a purchase intent on an existing product followed by a screenshot
upload appends exactly two order rows — the intent row with the product's
name and current price and no screenshot, then the evidence row with
product name "Screenshot Upload", amount "0" and the image reference —
the two rows are distinct, and no DatabaseManager write operation ever
modifies or removes existing order rows (rows are only ever appended). -/
theorem claim_c3_intent_and_evidence_rows (db : DB) (p : ProductRow) (pid : Nat)
    (uid : Int) (now1 now2 : Nat) (fid : String)
    (hfind : (get_all_products db).find? (fun q => q.id == pid) = some p) :
    (handle_photo (buy_now_callback db now1 uid pid) now2 uid fid).orders =
      db.orders ++
        [⟨db.nextOrderId, uid, p.name, p.price, "pending", now1, none⟩,
         ⟨db.nextOrderId + 1, uid, "Screenshot Upload", "0", "pending", now2, some fid⟩] ∧
    (⟨db.nextOrderId, uid, p.name, p.price, "pending", now1, none⟩ : OrderRow) ≠
      ⟨db.nextOrderId + 1, uid, "Screenshot Upload", "0", "pending", now2, some fid⟩ ∧
    ∀ (d : DB) (op : DBOp), ∃ newRows, (applyOp d op).orders = d.orders ++ newRows := by
  refine ⟨?_, ?_, ?_⟩
  · simp [buy_now_callback, hfind, handle_photo, add_order]
  · intro hcontra
    have hid := congrArg OrderRow.id hcontra
    simp at hid
  · intro d op
    cases op with
    | opAddUser now uid un fn ln => exact ⟨[], by simp [applyOp, add_user]⟩
    | opUpdateActivity now uid => exact ⟨[], by simp [applyOp, update_user_activity]⟩
    | opAddAdmin now uid un ab => exact ⟨[], by simp [applyOp, add_admin]⟩
    | opRemoveAdmin uid => exact ⟨[], by simp [applyOp, remove_admin]⟩
    | opAddProduct now c n f pr de => exact ⟨[], by simp [applyOp, add_product]⟩
    | opDeleteProduct pid => exact ⟨[], by simp [applyOp, delete_product]⟩
    | opAddOrder now uid pn am sc =>
      exact ⟨[⟨d.nextOrderId, uid, pn, am, "pending", now, sc⟩], by simp [applyOp, add_order]⟩
    | opSetSetting k v => exact ⟨[], by simp [applyOp, set_setting]⟩

/-- C3 witness: buying product 1 of the fixture then uploading a screenshot
yields the two expected rows. -/
theorem claim_c3_intent_and_evidence_rows_witness :
    (handle_photo (buy_now_callback dbP 11 9 1) 12 9 "f77").orders =
      dbP.orders ++
        [⟨dbP.nextOrderId, 9, prodDiuwin.name, prodDiuwin.price, "pending", 11, none⟩,
         ⟨dbP.nextOrderId + 1, 9, "Screenshot Upload", "0", "pending", 12, some "f77"⟩] ∧
    (⟨dbP.nextOrderId, 9, prodDiuwin.name, prodDiuwin.price, "pending", 11, none⟩ : OrderRow) ≠
      ⟨dbP.nextOrderId + 1, 9, "Screenshot Upload", "0", "pending", 12, some "f77"⟩ ∧
    ∀ (d : DB) (op : DBOp), ∃ newRows, (applyOp d op).orders = d.orders ++ newRows :=
  claim_c3_intent_and_evidence_rows dbP prodDiuwin 1 9 11 12 "f77" (by decide)

/-- Helper: the row given to upsertUser is a member of the result. -/
theorem upsertUser_self_mem (l : List UserRow) (row : UserRow) :
    row ∈ upsertUser l row := by
  induction l with
  | nil => simp [upsertUser]
  | cons r rest ih =>
    by_cases h : r.user_id = row.user_id
    · simp [upsertUser, h]
    · simp [upsertUser, h, ih]

/-- Helper: under unique user ids, every row of the upsert result carrying
the upserted id is the new row. -/
theorem upsertUser_eq_of_user_id (l : List UserRow) (row : UserRow)
    (hnd : (l.map fun r => r.user_id).Nodup) :
    ∀ r ∈ upsertUser l row, r.user_id = row.user_id → r = row := by
  induction l with
  | nil =>
    intro r hr _
    simpa [upsertUser] using hr
  | cons a rest ih =>
    intro r hr hid
    rw [List.map_cons, List.nodup_cons] at hnd
    by_cases h : a.user_id = row.user_id
    · rw [upsertUser, if_pos h] at hr
      rcases List.mem_cons.mp hr with h1 | h2
      · exact h1
      · exfalso
        apply hnd.1
        rw [h, ← hid]
        exact List.mem_map_of_mem _ h2
    · rw [upsertUser, if_neg h] at hr
      rcases List.mem_cons.mp hr with h1 | h2
      · exact absurd (h1 ▸ hid) h
      · exact ih hnd.2 r h2 hid

/-- C9: when a user id is already present with the blocked flag set,
add_user replaces the whole row — the stored row for that id becomes the
fresh row whose is_blocked is the schema default 0 and whose joined_date
is overwritten with now — so the id reappears in get_all_users (and hence
in broadcasts and listings).  The Nodup hypothesis is the users table's
PRIMARY KEY uniqueness. -/
theorem claim_c9_add_user_resets_blocked (db : DB) (now : Nat) (uid : Int)
    (un fn : String) (ln : Option String)
    (hpk : (db.users.map fun r => r.user_id).Nodup)
    (hblocked : ∃ r ∈ db.users, r.user_id = uid ∧ r.is_blocked ≠ 0) :
    (∀ r ∈ (add_user db now uid un fn ln).users,
        r.user_id = uid → r = ⟨uid, un, fn, ln, now, 0, now⟩) ∧
    ∃ r ∈ get_all_users (add_user db now uid un fn ln), r.user_id = uid := by
  have _hb := hblocked
  constructor
  · intro r hr hid
    exact upsertUser_eq_of_user_id db.users ⟨uid, un, fn, ln, now, 0, now⟩ hpk r hr hid
  · refine ⟨⟨uid, un, fn, ln, now, 0, now⟩, ?_, rfl⟩
    rw [get_all_users, List.mem_filter]
    exact ⟨upsertUser_self_mem db.users _, by simp⟩

/-- C9 witness: the blocked user 2 of the fixture is unblocked and relisted
by add_user. -/
theorem claim_c9_add_user_resets_blocked_witness :
    (∀ r ∈ (add_user dbB 5 2 "alice2" "Alice2" none).users,
        r.user_id = 2 → r = ⟨2, "alice2", "Alice2", none, 5, 0, 5⟩) ∧
    ∃ r ∈ get_all_users (add_user dbB 5 2 "alice2" "Alice2" none), r.user_id = 2 :=
  claim_c9_add_user_resets_blocked dbB 5 2 "alice2" "Alice2" none (by decide) (by decide)
